import Mathlib

/-!
Verification of the Stable-Diffusion v1.5 VRAM estimator
(src/vram_estimator/app/main.py).  Two embeddings of the core estimator are
developed side by side: f_estimate computes with exact rationals (the
analytical model of the spec, which coincides with the program whenever every
intermediate double is exact, as at all the concrete examples), while
f_estimate_fp models the CPython runtime faithfully: every float operation
rounds its exact result to the nearest IEEE-754 double (round to nearest,
ties to even), products beyond the largest finite double overflow to
infinity, and the int/int true division and int-to-float conversions raise
OverflowError outside the double range.  The Python builtin int() is modelled
by truncation toward zero and the builtin round(x, 2) by round-half-to-even
on hundredths.
-/

/-- Weight size in bytes of the FP16 SD v1.5 checkpoint (C_WEIGHTS_BYTES in main.py). -/
def C_WEIGHTS_BYTES : ℚ := 2132400000

/-- Fixed CUDA / framework overhead in bytes (C_OVERHEAD_BYTES in main.py). -/
def C_OVERHEAD_BYTES : ℚ := 500000000

/-- Per-token prompt cost factor in bytes (C_L_FACTOR in main.py). -/
def C_L_FACTOR : ℚ := 3072

/-- Activation-scaling base constant (K_ITER_BASE in main.py). -/
def K_ITER_BASE : ℚ := 20000

/-- Attention multiplier applied when optimization is disabled
(K_ATTN_STANDARD_MULTIPLIER in main.py). -/
def K_ATTN_STANDARD_MULTIPLIER : ℚ := 1.25

/-- bytes_to_gb from main.py: convert bytes to gigabytes by dividing by 1024^3. -/
def bytes_to_gb (b : ℚ) : ℚ := b / 1024 ^ 3

/-- Truncation toward zero on rationals: the behaviour of the Python builtin
int() applied to a (finite) float value. -/
def py_int (q : ℚ) : ℤ := if q < 0 then ⌈q⌉ else ⌊q⌋

/-- f_estimate from main.py over exact rational arithmetic: the analytical
model of the core VRAM estimation function.  Returns the estimated gigabyte
value and the attention-mode description; signals the non-multiple-of-8
failure with the sentinel pair (-1, message).  The runtime's double-precision
semantics, which coincides with this model exactly when every intermediate
double is representable, is modelled separately by f_estimate_fp. -/
def f_estimate (h w prompt_length : ℤ) (use_optimized : Bool) : ℚ × String :=
  let M_fixed : ℚ := C_WEIGHTS_BYTES + C_OVERHEAD_BYTES
  let M_prompt : ℚ := C_L_FACTOR * prompt_length
  let latent_h : ℚ := (h : ℚ) / 8
  let latent_w : ℚ := (w : ℚ) / 8
  if latent_h ≠ (py_int latent_h : ℚ) ∨ latent_w ≠ (py_int latent_w : ℚ) then
    (-1, "Input dimensions must be multiples of 8.")
  else
    let N_latent_pixels : ℚ := latent_h * latent_w
    let M_latent_buffer : ℚ := N_latent_pixels * 4 * 2
    let M_unet_intermediate : ℚ := N_latent_pixels * K_ITER_BASE
    let attn_multiplier : ℚ := if use_optimized then 1 else K_ATTN_STANDARD_MULTIPLIER
    let mode_str : String :=
      if use_optimized then "Optimized (Linear Scaling)" else "Standard (Quadratic Overhead)"
    let M_unet_intermediate_adjusted : ℚ := M_unet_intermediate * attn_multiplier
    let M_peak_activation : ℚ := M_unet_intermediate_adjusted + M_latent_buffer
    let M_peak_bytes : ℚ := M_fixed + M_prompt + M_peak_activation
    (bytes_to_gb M_peak_bytes, mode_str)

/-- Round to the nearest integer with ties to even: the rounding rule of the
Python builtin round(). -/
def round_half_even (q : ℚ) : ℤ :=
  if q - ⌊q⌋ = 1 / 2 then (if Even ⌊q⌋ then ⌊q⌋ else ⌊q⌋ + 1) else round q

/-- Python round(x, 2): round to the nearest hundredth, ties to even. -/
def py_round2 (q : ℚ) : ℚ := (round_half_even (q * 100) : ℚ) / 100

/-- The JSON body of a POST /api/estimate request (VramRequest in main.py). -/
structure VramRequest where
  height : ℤ
  width : ℤ
  prompt_length : ℤ
  optimization : Bool

/-- The JSON body returned by the /api/estimate endpoint: either a structured
error payload or the success breakdown. -/
inductive ApiResponse where
  | err (error : String) (details : String)
  | ok (predicted_vram_gb : ℚ) (attention_mode : String)
      (fixed_cost_gb : ℚ) (spatial_cost_gb : ℚ)
deriving DecidableEq

/-- estimate_vram_endpoint from main.py: validation, estimator invocation and
response shaping of the POST /api/estimate handler. -/
def estimate_vram_endpoint (request : VramRequest) : ApiResponse :=
  if request.height ≤ 0 ∨ request.width ≤ 0 then
    ApiResponse.err "Invalid dimensions" "Height and width must be positive integers."
  else if request.prompt_length < 1 ∨ request.prompt_length > 77 then
    ApiResponse.err "Invalid prompt length" "Prompt length must be between 1 and 77 tokens."
  else
    let res := f_estimate request.height request.width request.prompt_length request.optimization
    if res.1 < 0 then
      ApiResponse.err res.2 "Please use dimensions divisible by 8 (e.g., 512, 768, 1024)."
    else
      let fixed_cost_gb := bytes_to_gb (C_WEIGHTS_BYTES + C_OVERHEAD_BYTES)
      ApiResponse.ok (py_round2 res.1) res.2 (py_round2 fixed_cost_gb)
        (py_round2 (res.1 - fixed_cost_gb))

/-- An IEEE-754 double-precision value as held by a CPython float: a finite
value (represented by its exact rational value), an infinity, or NaN. -/
inductive PyFloat where
  | finite (val : ℚ)
  | posInf
  | negInf
  | nan
deriving DecidableEq

/-- Round an exact rational to the nearest IEEE-754 binary64 value (round to
nearest, ties to even), overflowing to an infinity beyond the double range.
The unit in the last place is 2^(e-52) for a magnitude in [2^e, 2^(e+1)),
clamped at 2^(-1074) in the subnormal range. -/
def fp_round (q : ℚ) : PyFloat :=
  if q = 0 then .finite 0
  else
    let u : ℤ := max (Int.log 2 |q| - 52) (-1074)
    let r : ℚ := (round_half_even (q / (2 : ℚ) ^ u) : ℚ) * (2 : ℚ) ^ u
    if (2 : ℚ) ^ (1024 : ℕ) ≤ r then .posInf
    else if r ≤ -((2 : ℚ) ^ (1024 : ℕ)) then .negInf
    else .finite r

/-- IEEE-754 double multiplication: the exact product correctly rounded, with
the usual infinity propagation (inf times zero is NaN; never reached here). -/
def fp_mul (x y : PyFloat) : PyFloat :=
  match x, y with
  | .finite a, .finite b => fp_round (a * b)
  | .finite a, .posInf => if 0 < a then .posInf else if a < 0 then .negInf else .nan
  | .finite a, .negInf => if 0 < a then .negInf else if a < 0 then .posInf else .nan
  | .posInf, .finite b => if 0 < b then .posInf else if b < 0 then .negInf else .nan
  | .negInf, .finite b => if 0 < b then .negInf else if b < 0 then .posInf else .nan
  | .posInf, .posInf => .posInf
  | .posInf, .negInf => .negInf
  | .negInf, .posInf => .negInf
  | .negInf, .negInf => .posInf
  | _, _ => .nan

/-- IEEE-754 double addition: the exact sum correctly rounded, with infinity
propagation (opposite infinities give NaN; never reached here). -/
def fp_add (x y : PyFloat) : PyFloat :=
  match x, y with
  | .finite a, .finite b => fp_round (a + b)
  | .finite _, .posInf => .posInf
  | .finite _, .negInf => .negInf
  | .posInf, .finite _ => .posInf
  | .negInf, .finite _ => .negInf
  | .posInf, .posInf => .posInf
  | .negInf, .negInf => .negInf
  | _, _ => .nan

/-- IEEE-754 double division as used by the source: the exact quotient
correctly rounded.  A zero divisor raises ZeroDivisionError in Python and is
mapped to NaN; the source only ever divides by the literals 8, 1024^3 and
100, so that case is unreachable.  Signed zeros are not distinguished. -/
def fp_div (x y : PyFloat) : PyFloat :=
  match x, y with
  | .finite a, .finite b => if b = 0 then .nan else fp_round (a / b)
  | .finite _, .posInf => .finite 0
  | .finite _, .negInf => .finite 0
  | .posInf, .finite b => if 0 ≤ b then .posInf else .negInf
  | .negInf, .finite b => if 0 ≤ b then .negInf else .posInf
  | _, _ => .nan

/-- CPython conversion of an arbitrary-precision int to a double: correctly
rounded, raising OverflowError (modelled as none) outside the double range. -/
def py_float_of_int (n : ℤ) : Option ℚ :=
  match fp_round (n : ℚ) with
  | .finite r => some r
  | _ => none

/-- CPython true division of two ints (the source's h / 8): the correctly
rounded double quotient, raising OverflowError (modelled as none) when the
result exceeds the double range. -/
def py_int_truediv (a b : ℤ) : Option ℚ :=
  match fp_round ((a : ℚ) / (b : ℚ)) with
  | .finite r => some r
  | _ => none

/-- f_estimate from main.py under CPython double-precision semantics.  The
constant subexpressions M_fixed and M_prompt are Python ints and stay exact;
h / 8 and w / 8 are correctly rounded double divisions that can raise
OverflowError (none); every subsequent float operation rounds to the nearest
double; the int sum M_fixed + M_prompt is converted to a double (one more
possible OverflowError) before the final additions and the division by
1024^3. -/
def f_estimate_fp (h w prompt_length : ℤ) (use_optimized : Bool) :
    Option (PyFloat × String) :=
  let M_fixed : ℤ := 2132400000 + 500000000
  let M_prompt : ℤ := 3072 * prompt_length
  match py_int_truediv h 8, py_int_truediv w 8 with
  | some latent_h, some latent_w =>
    if latent_h ≠ (py_int latent_h : ℚ) ∨ latent_w ≠ (py_int latent_w : ℚ) then
      some (.finite (-1), "Input dimensions must be multiples of 8.")
    else
      let N_latent_pixels := fp_mul (.finite latent_h) (.finite latent_w)
      let M_latent_buffer := fp_mul (fp_mul N_latent_pixels (.finite 4)) (.finite 2)
      let M_unet_intermediate := fp_mul N_latent_pixels (.finite 20000)
      let attn_multiplier : ℚ := if use_optimized then 1 else 5 / 4
      let mode_str : String :=
        if use_optimized then "Optimized (Linear Scaling)" else "Standard (Quadratic Overhead)"
      let M_unet_intermediate_adjusted := fp_mul M_unet_intermediate (.finite attn_multiplier)
      let M_peak_activation := fp_add M_unet_intermediate_adjusted M_latent_buffer
      match py_float_of_int (M_fixed + M_prompt) with
      | some fixed_plus_prompt =>
        some (fp_div (fp_add (.finite fixed_plus_prompt) M_peak_activation)
          (.finite (1024 ^ 3)), mode_str)
      | none => none
  | _, _ => none

/-- Truncation agrees with the identity on integer values. -/
theorem py_int_intCast (n : ℤ) : py_int (n : ℚ) = n := by
  unfold py_int
  split <;> simp

/-- The divisibility test performed inside f_estimate is exact: the latent
dimension n / 8 survives truncation by the Python int() iff 8 divides n. -/
theorem div8_eq_py_int_iff (n : ℤ) :
    ((n : ℚ) / 8 = (py_int ((n : ℚ) / 8) : ℚ)) ↔ (8 : ℤ) ∣ n := by
  constructor
  · intro hEq
    rw [div_eq_iff (by norm_num : (8 : ℚ) ≠ 0)] at hEq
    have hn : n = py_int ((n : ℚ) / 8) * 8 := by exact_mod_cast hEq
    exact ⟨py_int ((n : ℚ) / 8), by omega⟩
  · rintro ⟨k, rfl⟩
    have hk : ((8 * k : ℤ) : ℚ) / 8 = (k : ℚ) := by push_cast; ring
    rw [hk, py_int_intCast]

/-- Evaluation of f_estimate on dimensions divisible by 8: the success branch. -/
theorem f_estimate_of_dvd (h w pl : ℤ) (o : Bool)
    (hh : (8 : ℤ) ∣ h) (hw : (8 : ℤ) ∣ w) :
    f_estimate h w pl o =
      (bytes_to_gb (C_WEIGHTS_BYTES + C_OVERHEAD_BYTES + C_L_FACTOR * (pl : ℚ) +
        ((h : ℚ) / 8 * ((w : ℚ) / 8) * K_ITER_BASE *
            (if o then 1 else K_ATTN_STANDARD_MULTIPLIER) +
          (h : ℚ) / 8 * ((w : ℚ) / 8) * 4 * 2)),
       if o then "Optimized (Linear Scaling)" else "Standard (Quadratic Overhead)") := by
  have hcond : ¬(((h : ℚ) / 8 ≠ (py_int ((h : ℚ) / 8) : ℚ)) ∨
      ((w : ℚ) / 8 ≠ (py_int ((w : ℚ) / 8) : ℚ))) := by
    push_neg
    exact ⟨(div8_eq_py_int_iff h).2 hh, (div8_eq_py_int_iff w).2 hw⟩
  simp only [f_estimate, if_neg hcond]

/-- Evaluation of f_estimate when a dimension is not divisible by 8: the
sentinel failure branch. -/
theorem f_estimate_of_not_dvd (h w pl : ℤ) (o : Bool)
    (H : ¬ (8 : ℤ) ∣ h ∨ ¬ (8 : ℤ) ∣ w) :
    f_estimate h w pl o = (-1, "Input dimensions must be multiples of 8.") := by
  have hcond : ((h : ℚ) / 8 ≠ (py_int ((h : ℚ) / 8) : ℚ)) ∨
      ((w : ℚ) / 8 ≠ (py_int ((w : ℚ) / 8) : ℚ)) := by
    rcases H with H | H
    · exact Or.inl fun hEq => H ((div8_eq_py_int_iff h).1 hEq)
    · exact Or.inr fun hEq => H ((div8_eq_py_int_iff w).1 hEq)
  simp only [f_estimate, if_pos hcond]

/-- Gigabyte conversion is monotone. -/
theorem bytes_to_gb_le_bytes_to_gb (x y : ℚ) (hxy : x ≤ y) :
    bytes_to_gb x ≤ bytes_to_gb y := by
  unfold bytes_to_gb
  apply div_le_div_of_nonneg_right hxy
  norm_num

/-- Gigabyte conversion is injective. -/
theorem bytes_to_gb_inj (x y : ℚ) : bytes_to_gb x = bytes_to_gb y ↔ x = y := by
  unfold bytes_to_gb
  constructor
  · intro hxy
    field_simp at hxy
    exact hxy
  · intro hxy
    rw [hxy]

/-- Success branch of f_estimate with the optimized multiplier instantiated. -/
theorem f_estimate_true_eq (h w pl : ℤ) (hh : (8 : ℤ) ∣ h) (hw : (8 : ℤ) ∣ w) :
    f_estimate h w pl true =
      (bytes_to_gb (C_WEIGHTS_BYTES + C_OVERHEAD_BYTES + C_L_FACTOR * (pl : ℚ) +
        ((h : ℚ) / 8 * ((w : ℚ) / 8) * K_ITER_BASE * 1 +
          (h : ℚ) / 8 * ((w : ℚ) / 8) * 4 * 2)),
       "Optimized (Linear Scaling)") := by
  rw [f_estimate_of_dvd h w pl true hh hw]
  rfl

/-- Success branch of f_estimate with the standard multiplier instantiated. -/
theorem f_estimate_false_eq (h w pl : ℤ) (hh : (8 : ℤ) ∣ h) (hw : (8 : ℤ) ∣ w) :
    f_estimate h w pl false =
      (bytes_to_gb (C_WEIGHTS_BYTES + C_OVERHEAD_BYTES + C_L_FACTOR * (pl : ℚ) +
        ((h : ℚ) / 8 * ((w : ℚ) / 8) * K_ITER_BASE * K_ATTN_STANDARD_MULTIPLIER +
          (h : ℚ) / 8 * ((w : ℚ) / 8) * 4 * 2)),
       "Standard (Quadratic Overhead)") := by
  rw [f_estimate_of_dvd h w pl false hh hw]
  rfl

/-- C1: the claim's total of 2,714,414,608 bytes is not what the code computes
for height=512, width=512, prompt_length=20, use_optimized=true; the actual
total is 2,714,414,208 bytes (the fixed, prompt and activation components sum
to ...208, not ...608). -/
theorem C1_total_counterexample :
    (f_estimate 512 512 20 true).1 ≠ bytes_to_gb 2714414608 := by
  norm_num [f_estimate, py_int, bytes_to_gb, C_WEIGHTS_BYTES, C_OVERHEAD_BYTES, C_L_FACTOR,
    K_ITER_BASE, K_ATTN_STANDARD_MULTIPLIER]

/-- C1 (amended): for height=512, width=512, prompt_length=20,
use_optimized=true, the estimator computes latent_h=64, latent_w=64, N=4096,
latent_buffer=32768 bytes, base_intermediate=81,920,000 bytes, multiplier=1.0,
peak_activation=81,952,768 bytes, prompt_cost=61,440 bytes, fixed cost
2,632,400,000 bytes and a total of 2,714,414,208 bytes, which rounds to
2.53 GB. -/
theorem C1_optimized_example :
    f_estimate 512 512 20 true = (bytes_to_gb 2714414208, "Optimized (Linear Scaling)") ∧
    ((512 : ℤ) : ℚ) / 8 = 64 ∧
    (64 : ℚ) * 64 = 4096 ∧
    (4096 : ℚ) * 4 * 2 = 32768 ∧
    (4096 : ℚ) * K_ITER_BASE = 81920000 ∧
    (81920000 : ℚ) * 1 + 32768 = 81952768 ∧
    C_L_FACTOR * 20 = 61440 ∧
    C_WEIGHTS_BYTES + C_OVERHEAD_BYTES = 2632400000 ∧
    (2632400000 : ℚ) + 61440 + 81952768 = 2714414208 ∧
    py_round2 (bytes_to_gb 2714414208) = 253 / 100 := by
  refine ⟨?_, by norm_num, by norm_num, by norm_num, by norm_num [K_ITER_BASE], by norm_num,
    by norm_num [C_L_FACTOR], by norm_num [C_WEIGHTS_BYTES, C_OVERHEAD_BYTES], by norm_num, ?_⟩
  · norm_num [f_estimate, py_int, bytes_to_gb, C_WEIGHTS_BYTES, C_OVERHEAD_BYTES, C_L_FACTOR,
      K_ITER_BASE, K_ATTN_STANDARD_MULTIPLIER]
  · norm_num [py_round2, round_half_even, round_eq, bytes_to_gb]

/-- C3: for height=512, width=512, prompt_length=20, use_optimized=false, the
estimator applies the 1.25 multiplier, giving adjusted_intermediate
102,400,000 bytes, peak_activation 102,432,768 bytes and a total of
2,734,894,208 bytes, which rounds to 2.55 GB, with mode description
"Standard (Quadratic Overhead)". -/
theorem C3_standard_example :
    f_estimate 512 512 20 false = (bytes_to_gb 2734894208, "Standard (Quadratic Overhead)") ∧
    K_ATTN_STANDARD_MULTIPLIER = 5 / 4 ∧
    (81920000 : ℚ) * K_ATTN_STANDARD_MULTIPLIER = 102400000 ∧
    (102400000 : ℚ) + 32768 = 102432768 ∧
    (2632400000 : ℚ) + 61440 + 102432768 = 2734894208 ∧
    py_round2 (bytes_to_gb 2734894208) = 255 / 100 := by
  refine ⟨?_, by norm_num [K_ATTN_STANDARD_MULTIPLIER], by norm_num [K_ATTN_STANDARD_MULTIPLIER],
    by norm_num, by norm_num, ?_⟩
  · norm_num [f_estimate, py_int, bytes_to_gb, C_WEIGHTS_BYTES, C_OVERHEAD_BYTES, C_L_FACTOR,
      K_ITER_BASE, K_ATTN_STANDARD_MULTIPLIER]
  · norm_num [py_round2, round_half_even, round_eq, bytes_to_gb]

/-- C4: for every valid input (height and width positive multiples of 8,
prompt_length between 1 and 77, either attention mode) the estimate is at
least the gigabyte conversion of the fixed cost 2,632,400,000 bytes. -/
theorem C4_at_least_fixed_cost (h w pl : ℤ) (o : Bool)
    (hh : 0 < h) (hw : 0 < w) (hh8 : (8 : ℤ) ∣ h) (hw8 : (8 : ℤ) ∣ w)
    (hpl1 : 1 ≤ pl) (hpl77 : pl ≤ 77) :
    bytes_to_gb (C_WEIGHTS_BYTES + C_OVERHEAD_BYTES) ≤ (f_estimate h w pl o).1 := by
  have hhq : (0 : ℚ) < (h : ℚ) := by exact_mod_cast hh
  have hwq : (0 : ℚ) < (w : ℚ) := by exact_mod_cast hw
  have hN : (0 : ℚ) < (h : ℚ) / 8 * ((w : ℚ) / 8) :=
    mul_pos (by linarith) (by linarith)
  have hplq : (1 : ℚ) ≤ (pl : ℚ) := by exact_mod_cast hpl1
  cases o
  · rw [f_estimate_false_eq h w pl hh8 hw8]
    apply bytes_to_gb_le_bytes_to_gb
    simp only [C_L_FACTOR, K_ITER_BASE, K_ATTN_STANDARD_MULTIPLIER]
    nlinarith [hN, hplq]
  · rw [f_estimate_true_eq h w pl hh8 hw8]
    apply bytes_to_gb_le_bytes_to_gb
    simp only [C_L_FACTOR, K_ITER_BASE]
    nlinarith [hN, hplq]

/-- C6: on identical dimensions (multiples of 8, here taken nonnegative so the
latent pixel count N is meaningful) and prompt length, the optimized mode
never exceeds the standard mode, and the two agree exactly when the latent
pixel count N = (h/8)(w/8) is zero; for positive dimensions the optimized
estimate is therefore strictly lower. -/
theorem C6_optimized_le_standard (h w pl : ℤ)
    (hh : 0 ≤ h) (hw : 0 ≤ w) (hh8 : (8 : ℤ) ∣ h) (hw8 : (8 : ℤ) ∣ w) :
    (f_estimate h w pl true).1 ≤ (f_estimate h w pl false).1 ∧
    ((f_estimate h w pl true).1 = (f_estimate h w pl false).1 ↔
      (h : ℚ) / 8 * ((w : ℚ) / 8) = 0) := by
  have hhq : (0 : ℚ) ≤ (h : ℚ) := by exact_mod_cast hh
  have hwq : (0 : ℚ) ≤ (w : ℚ) := by exact_mod_cast hw
  have hN : (0 : ℚ) ≤ (h : ℚ) / 8 * ((w : ℚ) / 8) :=
    mul_nonneg (by linarith) (by linarith)
  rw [f_estimate_true_eq h w pl hh8 hw8, f_estimate_false_eq h w pl hh8 hw8]
  constructor
  · apply bytes_to_gb_le_bytes_to_gb
    simp only [K_ITER_BASE, K_ATTN_STANDARD_MULTIPLIER]
    nlinarith [hN]
  · rw [bytes_to_gb_inj]
    simp only [K_ITER_BASE, K_ATTN_STANDARD_MULTIPLIER]
    constructor
    · intro hEq
      nlinarith [hEq, hN]
    · intro h0
      rw [mul_comm] at h0
      nlinarith [h0]

/-- C7: with positive dimensions, the /api/estimate handler answers with the
invalid-prompt-length error exactly when prompt_length < 1 or
prompt_length > 77; in particular 0 and 78 are rejected and 77 is not. -/
theorem C7_prompt_length_validation (h w pl : ℤ) (o : Bool)
    (hh : 0 < h) (hw : 0 < w) :
    (estimate_vram_endpoint ⟨h, w, pl, o⟩ =
        ApiResponse.err "Invalid prompt length"
          "Prompt length must be between 1 and 77 tokens." ↔
      (pl < 1 ∨ pl > 77)) := by
  have hdim : ¬((⟨h, w, pl, o⟩ : VramRequest).height ≤ 0 ∨
      (⟨h, w, pl, o⟩ : VramRequest).width ≤ 0) := by
    push_neg
    exact ⟨hh, hw⟩
  by_cases hp : pl < 1 ∨ pl > 77
  · simp only [estimate_vram_endpoint, if_neg hdim, if_pos hp]
    simp [hp]
  · simp only [estimate_vram_endpoint, if_neg hdim, if_neg hp]
    constructor
    · intro hEq
      exfalso
      by_cases hd8 : (8 : ℤ) ∣ h ∧ (8 : ℤ) ∣ w
      · obtain ⟨hh8, hw8⟩ := hd8
        rcases o with _ | _
        · rw [f_estimate_false_eq h w pl hh8 hw8] at hEq
          split at hEq <;> simp at hEq
        · rw [f_estimate_true_eq h w pl hh8 hw8] at hEq
          split at hEq <;> simp at hEq
      · rw [not_and_or] at hd8
        rw [f_estimate_of_not_dvd h w pl o hd8] at hEq
        simp at hEq
    · intro hEq
      exact absurd hEq hp

/-- C8: the /api/estimate handler answers with the invalid-dimensions error
for every request whose height or width is nonpositive, whatever the other
fields are. -/
theorem C8_invalid_dimensions (req : VramRequest)
    (hbad : req.height ≤ 0 ∨ req.width ≤ 0) :
    estimate_vram_endpoint req =
      ApiResponse.err "Invalid dimensions" "Height and width must be positive integers." := by
  simp only [estimate_vram_endpoint, if_pos hbad]

/-- Round-half-to-even lands within one half of its argument. -/
theorem abs_round_half_even_sub_le (q : ℚ) : |(round_half_even q : ℚ) - q| ≤ 1 / 2 := by
  unfold round_half_even
  split
  · rename_i hq
    have hfl : (⌊q⌋ : ℚ) = q - 1 / 2 := by linarith
    split
    · rw [abs_le]
      constructor <;> linarith [hfl]
    · rw [abs_le]
      push_cast
      constructor <;> linarith [hfl]
  · rw [abs_sub_comm]
    exact abs_sub_round q

/-- Rounding to hundredths lands within 1/200 of its argument. -/
theorem abs_py_round2_sub_le (q : ℚ) : |py_round2 q - q| ≤ 1 / 200 := by
  unfold py_round2
  have h := abs_round_half_even_sub_le (q * 100)
  rw [abs_le] at h ⊢
  constructor <;> linarith [h.1, h.2]

/-- The independently rounded difference is within one hundredth of the
difference of the rounded values: both lie on the hundredths grid, and their
raw distance is below two hundredths. -/
theorem abs_round2_sub_round2_le (X F : ℚ) :
    |py_round2 (X - F) - (py_round2 X - py_round2 F)| ≤ 1 / 100 := by
  have h1 := abs_py_round2_sub_le (X - F)
  have h2 := abs_py_round2_sub_le X
  have h3 := abs_py_round2_sub_le F
  set k : ℤ := round_half_even ((X - F) * 100) - round_half_even (X * 100) +
    round_half_even (F * 100) with hk
  have hD : py_round2 (X - F) - (py_round2 X - py_round2 F) = (k : ℚ) / 100 := by
    simp only [py_round2, hk]
    push_cast
    ring
  have habs : |(k : ℚ)| / 100 ≤ 3 / 200 := by
    rw [← abs_of_pos (show (0 : ℚ) < 100 by norm_num), ← abs_div, ← hD]
    rw [abs_le] at h1 h2 h3 ⊢
    constructor <;> linarith [h1.1, h1.2, h2.1, h2.2, h3.1, h3.2]
  have hk1 : |k| ≤ 1 := by
    by_contra hcon
    push_neg at hcon
    have h2le : (2 : ℤ) ≤ |k| := Int.lt_iff_add_one_le.mp hcon
    have h2q : (2 : ℚ) ≤ |(k : ℚ)| := by
      rw [← Int.cast_abs]
      exact_mod_cast h2le
    linarith
  have hkq : |(k : ℚ)| ≤ 1 := by
    rw [← Int.cast_abs]
    exact_mod_cast hk1
  rw [hD, abs_div, abs_of_pos (show (0 : ℚ) < 100 by norm_num)]
  linarith

/-- C9: every successful response carries predicted_vram_gb, fixed_cost_gb and
spatial_cost_gb as the 2-decimal roundings of their unrounded gigabyte values,
with spatial_cost_gb rounded from the unrounded difference; being rounded
independently it differs from the subtraction of the two rounded fields by at
most 0.01. -/
theorem C9_rounded_fields (req : VramRequest) (p f s : ℚ) (m : String)
    (hok : estimate_vram_endpoint req = ApiResponse.ok p m f s) :
    p = py_round2 (f_estimate req.height req.width req.prompt_length req.optimization).1 ∧
    f = py_round2 (bytes_to_gb (C_WEIGHTS_BYTES + C_OVERHEAD_BYTES)) ∧
    s = py_round2 ((f_estimate req.height req.width req.prompt_length req.optimization).1 -
          bytes_to_gb (C_WEIGHTS_BYTES + C_OVERHEAD_BYTES)) ∧
    |s - (p - f)| ≤ 1 / 100 := by
  simp only [estimate_vram_endpoint] at hok
  by_cases h1 : req.height ≤ 0 ∨ req.width ≤ 0
  · rw [if_pos h1] at hok
    exact absurd hok (by simp)
  rw [if_neg h1] at hok
  by_cases h2 : req.prompt_length < 1 ∨ req.prompt_length > 77
  · rw [if_pos h2] at hok
    exact absurd hok (by simp)
  rw [if_neg h2] at hok
  by_cases h3 : (f_estimate req.height req.width req.prompt_length req.optimization).1 < 0
  · rw [if_pos h3] at hok
    exact absurd hok (by simp)
  rw [if_neg h3] at hok
  rw [ApiResponse.ok.injEq] at hok
  obtain ⟨hp, hm, hf, hs⟩ := hok
  refine ⟨hp.symm, hf.symm, hs.symm, ?_⟩
  rw [← hp, ← hf, ← hs]
  exact abs_round2_sub_round2_le _ _

/-- Concrete evaluation of the endpoint on the running example request. -/
theorem endpoint_example_eval :
    estimate_vram_endpoint ⟨512, 512, 20, true⟩ =
      ApiResponse.ok (253 / 100) "Optimized (Linear Scaling)" (245 / 100) (8 / 100) := by
  norm_num [estimate_vram_endpoint, f_estimate, py_int, bytes_to_gb, py_round2, round_half_even,
    round_eq, C_WEIGHTS_BYTES, C_OVERHEAD_BYTES, C_L_FACTOR, K_ITER_BASE, K_ATTN_STANDARD_MULTIPLIER]

/-- Witness for C4 at height=512, width=512, prompt_length=20, optimized. -/
theorem C4_witness :
    (0 : ℤ) < 512 ∧ (8 : ℤ) ∣ 512 ∧ (1 : ℤ) ≤ 20 ∧ (20 : ℤ) ≤ 77 ∧
    bytes_to_gb (C_WEIGHTS_BYTES + C_OVERHEAD_BYTES) ≤ (f_estimate 512 512 20 true).1 :=
  ⟨by decide, ⟨64, by decide⟩, by decide, by decide,
   C4_at_least_fixed_cost 512 512 20 true (by decide) (by decide)
     ⟨64, by decide⟩ ⟨64, by decide⟩ (by decide) (by decide)⟩

/-- Witness for C6 at height=512, width=512, prompt_length=20. -/
theorem C6_witness :
    (f_estimate 512 512 20 true).1 ≤ (f_estimate 512 512 20 false).1 ∧
    ((f_estimate 512 512 20 true).1 = (f_estimate 512 512 20 false).1 ↔
      ((512 : ℤ) : ℚ) / 8 * (((512 : ℤ) : ℚ) / 8) = 0) :=
  C6_optimized_le_standard 512 512 20 (by decide) (by decide) ⟨64, by decide⟩ ⟨64, by decide⟩

/-- Witness for C7: prompt_length=0 with valid dimensions is rejected with the
invalid-prompt-length error. -/
theorem C7_witness :
    estimate_vram_endpoint ⟨512, 512, 0, true⟩ =
      ApiResponse.err "Invalid prompt length" "Prompt length must be between 1 and 77 tokens." :=
  (C7_prompt_length_validation 512 512 0 true (by decide) (by decide)).mpr (Or.inl (by decide))

/-- Witness for C8 at height=0 and at width=-10, the second with an
out-of-range prompt length as well. -/
theorem C8_witness :
    estimate_vram_endpoint ⟨0, 512, 20, true⟩ =
      ApiResponse.err "Invalid dimensions" "Height and width must be positive integers." ∧
    estimate_vram_endpoint ⟨512, -10, 100, false⟩ =
      ApiResponse.err "Invalid dimensions" "Height and width must be positive integers." :=
  ⟨C8_invalid_dimensions ⟨0, 512, 20, true⟩ (Or.inl (by decide)),
   C8_invalid_dimensions ⟨512, -10, 100, false⟩ (Or.inr (by decide))⟩

/-- Witness for C9 on the example request and its concrete response fields. -/
theorem C9_witness :
    estimate_vram_endpoint ⟨512, 512, 20, true⟩ =
      ApiResponse.ok (253 / 100) "Optimized (Linear Scaling)" (245 / 100) (8 / 100) ∧
    ((253 : ℚ) / 100 = py_round2 (f_estimate 512 512 20 true).1 ∧
      (245 : ℚ) / 100 = py_round2 (bytes_to_gb (C_WEIGHTS_BYTES + C_OVERHEAD_BYTES)) ∧
      (8 : ℚ) / 100 = py_round2 ((f_estimate 512 512 20 true).1 -
        bytes_to_gb (C_WEIGHTS_BYTES + C_OVERHEAD_BYTES)) ∧
      |(8 : ℚ) / 100 - (253 / 100 - 245 / 100)| ≤ 1 / 100) :=
  ⟨endpoint_example_eval,
   C9_rounded_fields ⟨512, 512, 20, true⟩ (253 / 100) (245 / 100) (8 / 100)
     "Optimized (Linear Scaling)" endpoint_example_eval⟩


/-- Round-half-to-even fixes integers. -/
theorem round_half_even_intCast (n : ℤ) : round_half_even (n : ℚ) = n := by
  unfold round_half_even
  rw [Int.floor_intCast, if_neg (by norm_num), round_intCast]

/-- The base-2 integer logarithm is characterized by a power-of-two bracket. -/
theorem int_log2_eq_of_bracket (q : ℚ) (e : ℤ) (h0 : 0 < q)
    (h1 : (2 : ℚ) ^ e ≤ q) (h2 : q < (2 : ℚ) ^ (e + 1)) : Int.log 2 q = e := by
  have hl : e ≤ Int.log 2 q := (Int.zpow_le_iff_le_log (by norm_num) h0).1 h1
  have hu : Int.log 2 q < e + 1 := (Int.lt_zpow_iff_log_lt (by norm_num) h0).1 h2
  omega

/-- Evaluation rule for fp_round producing a finite double, driven by a
power-of-two bracket for the magnitude of the argument. -/
theorem fp_round_eq_finite (q r : ℚ) (e : ℤ) (hq : q ≠ 0)
    (h1 : (2 : ℚ) ^ e ≤ |q|) (h2 : |q| < (2 : ℚ) ^ (e + 1)) (he : -1022 ≤ e)
    (hr : (round_half_even (q / (2 : ℚ) ^ (e - 52)) : ℚ) * (2 : ℚ) ^ (e - 52) = r)
    (hup : r < (2 : ℚ) ^ (1024 : ℕ)) (hdown : -((2 : ℚ) ^ (1024 : ℕ)) < r) :
    fp_round q = .finite r := by
  have habs : (0 : ℚ) < |q| := abs_pos.2 hq
  have hlog : Int.log 2 |q| = e := int_log2_eq_of_bracket _ e habs h1 h2
  simp only [fp_round, if_neg hq, hlog]
  rw [max_eq_left (by omega : (-1074 : ℤ) ≤ e - 52), hr,
    if_neg (not_le.2 hup), if_neg (not_le.2 (by linarith))]

/-- Evaluation rule for fp_round overflowing to positive infinity. -/
theorem fp_round_eq_posInf (q : ℚ) (e : ℤ) (hq : q ≠ 0)
    (h1 : (2 : ℚ) ^ e ≤ |q|) (h2 : |q| < (2 : ℚ) ^ (e + 1)) (he : -1022 ≤ e)
    (hbig : (2 : ℚ) ^ (1024 : ℕ) ≤
      (round_half_even (q / (2 : ℚ) ^ (e - 52)) : ℚ) * (2 : ℚ) ^ (e - 52)) :
    fp_round q = .posInf := by
  have habs : (0 : ℚ) < |q| := abs_pos.2 hq
  have hlog : Int.log 2 |q| = e := int_log2_eq_of_bracket _ e habs h1 h2
  simp only [fp_round, if_neg hq, hlog]
  rw [max_eq_left (by omega : (-1074 : ℤ) ≤ e - 52), if_pos hbig]

/-- fp_round is the identity on nonzero rationals of the form a * 2^t with at
most 53 significant bits: such values already lie on the double grid. -/
theorem fp_round_exact_shift (a t : ℤ) (ha : a ≠ 0) (habs : |a| < 2 ^ 53)
    (htl : -900 ≤ t) (htu : t ≤ 900) :
    fp_round ((a : ℚ) * (2 : ℚ) ^ t) = .finite ((a : ℚ) * (2 : ℚ) ^ t) := by
  have h2ne : (2 : ℚ) ≠ 0 := by norm_num
  have h2pos : (0 : ℚ) < (2 : ℚ) ^ t := zpow_pos (by norm_num) t
  have haq : (1 : ℚ) ≤ |(a : ℚ)| := by
    rw [← Int.cast_abs]
    exact_mod_cast Int.one_le_abs ha
  have haq2 : |(a : ℚ)| < 2 ^ 53 := by
    rw [← Int.cast_abs]
    exact_mod_cast habs
  set q : ℚ := (a : ℚ) * (2 : ℚ) ^ t with hqdef
  have hq0 : q ≠ 0 := mul_ne_zero (Int.cast_ne_zero.2 ha) (ne_of_gt h2pos)
  have habsq : |q| = |(a : ℚ)| * (2 : ℚ) ^ t := by
    rw [hqdef, abs_mul, abs_of_pos h2pos]
  have habspos : (0 : ℚ) < |q| := abs_pos.2 hq0
  set e : ℤ := Int.log 2 |q| with hedef
  have h1 : (2 : ℚ) ^ e ≤ |q| := by
    have := Int.zpow_log_le_self (b := 2) (by norm_num) habspos
    rw [← hedef] at this
    exact_mod_cast this
  have h2 : |q| < (2 : ℚ) ^ (e + 1) := by
    have := Int.lt_zpow_succ_log_self (b := 2) (by norm_num) |q|
    rw [← hedef] at this
    exact_mod_cast this
  have het : t ≤ e := by
    rw [hedef]
    apply (Int.zpow_le_iff_le_log (by norm_num) habspos).1
    rw [habsq]
    push_cast
    nlinarith [h2pos, haq]
  have h53t : |q| < (2 : ℚ) ^ (53 + t) := by
    rw [habsq, zpow_add₀ h2ne, show ((2 : ℚ) ^ (53 : ℤ)) = 2 ^ 53 by norm_num]
    nlinarith [h2pos, haq2]
  have heu : e ≤ 52 + t := by
    have hlt := (Int.lt_zpow_iff_log_lt (b := 2) (by norm_num) habspos).1 (by exact_mod_cast h53t)
    rw [← hedef] at hlt
    omega
  have hn : ((52 + t - e).toNat : ℤ) = 52 + t - e := Int.toNat_of_nonneg (by omega)
  have hmint : q / (2 : ℚ) ^ (e - 52) = ((a * 2 ^ (52 + t - e).toNat : ℤ) : ℚ) := by
    push_cast
    rw [← zpow_natCast (2 : ℚ) ((52 + t - e).toNat), hn,
      div_eq_iff (ne_of_gt (zpow_pos (by norm_num : (0 : ℚ) < 2) (e - 52))), hqdef,
      mul_assoc, ← zpow_add₀ h2ne, show 52 + t - e + (e - 52) = t by ring]
  have hrhe : (round_half_even (q / (2 : ℚ) ^ (e - 52)) : ℚ) * (2 : ℚ) ^ (e - 52) = q := by
    rw [hmint, round_half_even_intCast, ← hmint,
      div_mul_cancel₀ _ (ne_of_gt (zpow_pos (by norm_num : (0 : ℚ) < 2) (e - 52)))]
  have hbound : |q| < (2 : ℚ) ^ (1024 : ℕ) := by
    calc |q| < (2 : ℚ) ^ (53 + t) := h53t
      _ ≤ (2 : ℚ) ^ (1024 : ℤ) := zpow_le_zpow_right₀ (by norm_num) (by omega)
      _ = (2 : ℚ) ^ (1024 : ℕ) := by norm_num
  exact fp_round_eq_finite q q e hq0 h1 h2 (by omega) hrhe
    (lt_of_le_of_lt (le_abs_self q) hbound) ((abs_lt.1 hbound).1)

/-- Integers of magnitude below 2^53 are exactly representable doubles. -/
theorem fp_round_intCast_small (a : ℤ) (habs : |a| < 2 ^ 53) :
    fp_round (a : ℚ) = .finite (a : ℚ) := by
  rcases eq_or_ne a 0 with rfl | ha
  · norm_num [fp_round]
  · have := fp_round_exact_shift a 0 ha habs (by norm_num) (by norm_num)
    simpa using this

/-- The quotient h / 8 of an integer of magnitude below 2^53 is an exactly
representable double. -/
theorem fp_round_div8_small (h : ℤ) (habs : |h| < 2 ^ 53) :
    fp_round ((h : ℚ) / 8) = .finite ((h : ℚ) / 8) := by
  rcases eq_or_ne h 0 with rfl | hh
  · norm_num [fp_round]
  · have h8 : ((h : ℚ)) / 8 = (h : ℚ) * (2 : ℚ) ^ (-3 : ℤ) := by
      rw [zpow_neg, show ((2 : ℚ) ^ (3 : ℤ)) = 8 by norm_num, div_eq_mul_inv]
    rw [h8]
    exact fp_round_exact_shift h (-3) hh habs (by norm_num) (by norm_num)

/-- The Python division h / 8 returns the exact quotient for integers of
magnitude below 2^53. -/
theorem py_int_truediv_eight_small (h : ℤ) (habs : |h| < 2 ^ 53) :
    py_int_truediv h 8 = some ((h : ℚ) / 8) := by
  unfold py_int_truediv
  rw [show (((8 : ℤ)) : ℚ) = (8 : ℚ) by norm_num, fp_round_div8_small h habs]

/-- The Python division h / 8 returns the exact quotient for multiples of 8
of magnitude below 2^56. -/
theorem py_int_truediv_eight_dvd (h : ℤ) (hd : (8 : ℤ) ∣ h) (habs : |h| < 2 ^ 56) :
    py_int_truediv h 8 = some ((h : ℚ) / 8) := by
  obtain ⟨a, rfl⟩ := hd
  have ha : |a| < 2 ^ 53 := by
    rw [abs_mul] at habs
    norm_num at habs
    linarith
  have hq : (((8 * a : ℤ)) : ℚ) / ((8 : ℤ) : ℚ) = ((a : ℤ) : ℚ) := by push_cast; ring
  unfold py_int_truediv
  rw [hq, fp_round_intCast_small a ha]
  have hq2 : (((8 * a : ℤ)) : ℚ) / (8 : ℚ) = ((a : ℤ) : ℚ) := by push_cast; ring
  rw [hq2]

/-- Conversion of an int of magnitude below 2^53 to a double is exact. -/
theorem py_float_of_int_small (n : ℤ) (habs : |n| < 2 ^ 53) :
    py_float_of_int n = some (n : ℚ) := by
  unfold py_float_of_int
  rw [fp_round_intCast_small n habs]

/-- Multiplying positive infinity by a positive finite double gives positive
infinity. -/
theorem fp_mul_posInf_left (b : ℚ) (hb : 0 < b) :
    fp_mul .posInf (.finite b) = .posInf := by
  simp only [fp_mul]
  rw [if_pos hb]

/-- Dividing positive infinity by a nonnegative finite double gives positive
infinity. -/
theorem fp_div_posInf_finite (b : ℚ) (hb : 0 ≤ b) :
    fp_div .posInf (.finite b) = .posInf := by
  simp only [fp_div]
  rw [if_pos hb]

/-- The latent width 512 / 8 = 64 computed in double precision. -/
theorem truediv_512 : py_int_truediv 512 8 = some (64 : ℚ) := by
  rw [py_int_truediv_eight_small 512 (by norm_num)]
  norm_num


/-- Symbolic bridge: a Python int division whose rounded quotient is finite. -/
theorem py_int_truediv_eq_some (a b : ℤ) (q r : ℚ)
    (hq : (a : ℚ) / (b : ℚ) = q) (hr : fp_round q = .finite r) :
    py_int_truediv a b = some r := by
  unfold py_int_truediv
  rw [hq, hr]

/-- Symbolic bridge: a Python int division that overflows the double range
raises OverflowError. -/
theorem py_int_truediv_eq_none (a b : ℤ) (q : ℚ)
    (hq : (a : ℚ) / (b : ℚ) = q) (hr : fp_round q = .posInf) :
    py_int_truediv a b = none := by
  unfold py_int_truediv
  rw [hq, hr]

/-- Powers of two up to the double range are exactly representable. -/
theorem fp_round_two_pow (n : ℕ) (hn : n ≤ 900) :
    fp_round ((2 : ℚ) ^ n) = .finite ((2 : ℚ) ^ n) := by
  have h1 : ((1 : ℤ) : ℚ) * (2 : ℚ) ^ (n : ℤ) = (2 : ℚ) ^ n := by
    rw [Int.cast_one, one_mul, zpow_natCast]
  have h2 := fp_round_exact_shift 1 n one_ne_zero (by norm_num) (by omega) (by omega)
  rw [h1] at h2
  exact h2

/-- Powers of two at or beyond 2^1024 overflow to positive infinity. -/
theorem fp_round_two_pow_inf (n : ℕ) (hn : 1024 ≤ n) (hn2 : n ≤ 1200) :
    fp_round ((2 : ℚ) ^ n) = .posInf := by
  have hnn : ((n : ℤ) - 52) = ((n - 52 : ℕ) : ℤ) := by omega
  apply fp_round_eq_posInf _ (n : ℤ) (by positivity) ?h1 ?h2 (by omega) ?hbig
  case h1 =>
    rw [abs_of_pos (by positivity), zpow_natCast]
  case h2 =>
    rw [abs_of_pos (by positivity), show ((n : ℤ) + 1) = ((n + 1 : ℕ) : ℤ) by push_cast; ring,
      zpow_natCast]
    exact pow_lt_pow_right₀ (by norm_num) (by omega)
  case hbig =>
    rw [hnn, zpow_natCast]
    have hsplit : (2 : ℚ) ^ n = (2 : ℚ) ^ (n - 52 : ℕ) * (2 : ℚ) ^ (52 : ℕ) := by
      rw [← pow_add]
      congr 1
      omega
    have hquot : (2 : ℚ) ^ n / (2 : ℚ) ^ (n - 52 : ℕ) = ((2 ^ 52 : ℤ) : ℚ) := by
      rw [hsplit, mul_div_cancel_left₀ _ (pow_ne_zero _ (by norm_num : (2 : ℚ) ≠ 0))]
      push_cast
      norm_num
    rw [hquot, round_half_even_intCast,
      show ((2 ^ 52 : ℤ) : ℚ) = (2 : ℚ) ^ (52 : ℕ) by push_cast; norm_num,
      ← pow_add, show 52 + (n - 52) = n by omega]
    exact pow_le_pow_right₀ (by norm_num) hn

/-- Precision loss of the source's check: (2^56 + 1) / 8 = 2^53 + 1/8 rounds
to the integral double 2^53. -/
theorem truediv_pow56_add_one :
    py_int_truediv (2 ^ 56 + 1) 8 = some ((2 : ℚ) ^ 53) := by
  apply py_int_truediv_eq_some _ _ ((2 : ℚ) ^ 53 + 1 / 8) _ (by push_cast; norm_num)
  apply fp_round_eq_finite _ _ 53 (by norm_num)
    (by rw [abs_of_pos (by positivity)]; norm_num)
    (by rw [abs_of_pos (by positivity)]; norm_num)
    (by norm_num) _ (by norm_num) (by norm_num)
  norm_num [round_half_even, round_eq]

/-- The latent height of 2^540: the power of two 2^537, still a finite double. -/
theorem truediv_pow540 : py_int_truediv (2 ^ 540) 8 = some ((2 : ℚ) ^ 537) := by
  apply py_int_truediv_eq_some _ _ ((2 : ℚ) ^ 537) _ ?hq (fp_round_two_pow 537 (by norm_num))
  case hq =>
    push_cast
    rw [show (540 : ℕ) = 537 + 3 from rfl, pow_add, mul_div_assoc]
    norm_num

/-- OverflowError in the source's division: (2^1030) / 8 = 2^1027 exceeds the
double range, so Python raises instead of returning a float. -/
theorem truediv_pow1030 : py_int_truediv (2 ^ 1030) 8 = none := by
  apply py_int_truediv_eq_none _ _ ((2 : ℚ) ^ 1027) ?hq
    (fp_round_two_pow_inf 1027 (by norm_num) (by norm_num))
  case hq =>
    push_cast
    rw [show (1030 : ℕ) = 1027 + 3 from rfl, pow_add, mul_div_assoc]
    norm_num

/-- Overflow of the latent pixel count at 2^540 by 2^540: the exact product
2^537 * 2^537 = 2^1074 exceeds the largest finite double and the IEEE product
is positive infinity. -/
theorem fp_round_pow1074 :
    fp_round ((2 : ℚ) ^ 537 * (2 : ℚ) ^ 537) = .posInf := by
  rw [← pow_add, show (537 + 537 : ℕ) = 1074 from rfl]
  exact fp_round_two_pow_inf 1074 (by norm_num) (by norm_num)

/-- Shape of f_estimate_fp once both latent divisions have succeeded: the
divisibility check on the latent doubles, then the rounded pipeline. -/
theorem f_estimate_fp_of_truediv (h w pl : ℤ) (o : Bool) (lh lw : ℚ)
    (hhd : py_int_truediv h 8 = some lh) (hwd : py_int_truediv w 8 = some lw) :
    f_estimate_fp h w pl o =
      (if lh ≠ (py_int lh : ℚ) ∨ lw ≠ (py_int lw : ℚ) then
        some (.finite (-1), "Input dimensions must be multiples of 8.")
      else
        match py_float_of_int (2132400000 + 500000000 + 3072 * pl) with
        | some fixed_plus_prompt =>
          some (fp_div
            (fp_add (.finite fixed_plus_prompt)
              (fp_add
                (fp_mul (fp_mul (fp_mul (.finite lh) (.finite lw)) (.finite 20000))
                  (.finite (if o then 1 else 5 / 4)))
                (fp_mul (fp_mul (fp_mul (.finite lh) (.finite lw)) (.finite 4)) (.finite 2))))
            (.finite (1024 ^ 3)),
           if o then "Optimized (Linear Scaling)" else "Standard (Quadratic Overhead)")
        | none => none) := by
  unfold f_estimate_fp
  rw [hhd, hwd]

/-- When a latent division raises OverflowError, f_estimate_fp raises too. -/
theorem f_estimate_fp_of_truediv_none (h w pl : ℤ) (o : Bool)
    (hhd : py_int_truediv h 8 = none) :
    f_estimate_fp h w pl o = none := by
  unfold f_estimate_fp
  rw [hhd]

/-- Fully reduced success shape of f_estimate_fp: latent divisions succeed,
the check passes, and the int-to-float conversion succeeds. -/
theorem f_estimate_fp_success (h w pl : ℤ) (o : Bool) (lh lw c : ℚ)
    (hhd : py_int_truediv h 8 = some lh) (hwd : py_int_truediv w 8 = some lw)
    (hc1 : (py_int lh : ℚ) = lh) (hc2 : (py_int lw : ℚ) = lw)
    (hconv : py_float_of_int (2132400000 + 500000000 + 3072 * pl) = some c) :
    f_estimate_fp h w pl o =
      some (fp_div
        (fp_add (.finite c)
          (fp_add
            (fp_mul (fp_mul (fp_mul (.finite lh) (.finite lw)) (.finite 20000))
              (.finite (if o then 1 else 5 / 4)))
            (fp_mul (fp_mul (fp_mul (.finite lh) (.finite lw)) (.finite 4)) (.finite 2))))
        (.finite (1024 ^ 3)),
       if o then "Optimized (Linear Scaling)" else "Standard (Quadratic Overhead)") := by
  rw [f_estimate_fp_of_truediv h w pl o lh lw hhd hwd,
    if_neg (by push_neg; exact ⟨hc1.symm, hc2.symm⟩), hconv]

/-- f_estimate_fp raises when the int-to-float conversion of the fixed plus
prompt cost overflows, even though the check passed. -/
theorem f_estimate_fp_conv_none (h w pl : ℤ) (o : Bool) (lh lw : ℚ)
    (hhd : py_int_truediv h 8 = some lh) (hwd : py_int_truediv w 8 = some lw)
    (hc1 : (py_int lh : ℚ) = lh) (hc2 : (py_int lw : ℚ) = lw)
    (hconv : py_float_of_int (2132400000 + 500000000 + 3072 * pl) = none) :
    f_estimate_fp h w pl o = none := by
  rw [f_estimate_fp_of_truediv h w pl o lh lw hhd hwd,
    if_neg (by push_neg; exact ⟨hc1.symm, hc2.symm⟩), hconv]

/-- f_estimate_fp returns the sentinel failure when the double-precision
check detects a non-integral latent dimension. -/
theorem f_estimate_fp_check_fail (h w pl : ℤ) (o : Bool) (lh lw : ℚ)
    (hhd : py_int_truediv h 8 = some lh) (hwd : py_int_truediv w 8 = some lw)
    (hne : lh ≠ (py_int lh : ℚ) ∨ lw ≠ (py_int lw : ℚ)) :
    f_estimate_fp h w pl o =
      some (.finite (-1), "Input dimensions must be multiples of 8.") := by
  rw [f_estimate_fp_of_truediv h w pl o lh lw hhd hwd, if_pos hne]

/-- C2 counterexample: at height = 2^56 + 1, which is not a multiple of 8,
the program does not fail: its double-precision latent height (2^56 + 1) / 8
rounds to the integral double 2^53, the check passes, and a computed result
with the optimized mode string is returned. -/
theorem C2_precision_counterexample :
    ¬ ((8 : ℤ) ∣ (2 ^ 56 + 1)) ∧ (0 : ℤ) < 2 ^ 56 + 1 ∧
    (f_estimate_fp (2 ^ 56 + 1) 512 20 true).map Prod.snd =
      some "Optimized (Linear Scaling)" := by
  have e1 : (py_int ((2 : ℚ) ^ 53) : ℚ) = (2 : ℚ) ^ 53 := by
    rw [show ((2 : ℚ) ^ 53) = (((2 ^ 53 : ℤ)) : ℚ) from by push_cast; norm_num,
      py_int_intCast]
  have e2 : (py_int ((64 : ℚ)) : ℚ) = (64 : ℚ) := by
    rw [show ((64 : ℚ)) = (((64 : ℤ)) : ℚ) from by norm_num, py_int_intCast]
  refine ⟨by omega, by positivity, ?_⟩
  rw [f_estimate_fp_success (2 ^ 56 + 1) 512 20 true _ _ _ truediv_pow56_add_one truediv_512
    e1 e2 (py_float_of_int_small _ (by norm_num))]
  rfl

/-- C2 (amended): for positive dimensions below 2^53 every latent quotient is
an exact double, so the double-precision program fails with the
NonMultipleOf8 sentinel exactly when the height or the width is not divisible
by 8; in particular 512 x 512 succeeds and 513 fails. -/
theorem C2_exact_check_below_pow53 (h w pl : ℤ) (o : Bool)
    (hh : 0 < h) (hw : 0 < w) (hh53 : h < 2 ^ 53) (hw53 : w < 2 ^ 53) :
    (f_estimate_fp h w pl o =
        some (.finite (-1), "Input dimensions must be multiples of 8.") ↔
      (¬ (8 : ℤ) ∣ h ∨ ¬ (8 : ℤ) ∣ w)) := by
  have hhd := py_int_truediv_eight_small h (by rw [abs_of_pos hh]; exact hh53)
  have hwd := py_int_truediv_eight_small w (by rw [abs_of_pos hw]; exact hw53)
  constructor
  · intro hEq
    by_contra hC
    push_neg at hC
    obtain ⟨h8, w8⟩ := hC
    have hc1 : (py_int ((h : ℚ) / 8) : ℚ) = (h : ℚ) / 8 := ((div8_eq_py_int_iff h).2 h8).symm
    have hc2 : (py_int ((w : ℚ) / 8) : ℚ) = (w : ℚ) / 8 := ((div8_eq_py_int_iff w).2 w8).symm
    rcases hconv : py_float_of_int (2132400000 + 500000000 + 3072 * pl) with _ | c
    · rw [f_estimate_fp_conv_none h w pl o _ _ hhd hwd hc1 hc2 hconv] at hEq
      exact Option.noConfusion hEq
    · rw [f_estimate_fp_success h w pl o _ _ c hhd hwd hc1 hc2 hconv] at hEq
      rw [Option.some.injEq, Prod.mk.injEq] at hEq
      rcases o with _ | _ <;> simp at hEq
  · intro hor
    have hne : (h : ℚ) / 8 ≠ (py_int ((h : ℚ) / 8) : ℚ) ∨
        (w : ℚ) / 8 ≠ (py_int ((w : ℚ) / 8) : ℚ) := by
      rcases hor with hno | hno
      · exact Or.inl fun hEq2 => hno ((div8_eq_py_int_iff h).1 hEq2)
      · exact Or.inr fun hEq2 => hno ((div8_eq_py_int_iff w).1 hEq2)
    exact f_estimate_fp_check_fail h w pl o _ _ hhd hwd hne

/-- Witness for C2 at height=513, width=512: in range, and the iff instance
shows 513 is rejected with the failure sentinel. -/
theorem C2_witness :
    ((0 : ℤ) < 513 ∧ (513 : ℤ) < 2 ^ 53 ∧ (0 : ℤ) < 512 ∧ (512 : ℤ) < 2 ^ 53) ∧
    (f_estimate_fp 513 512 20 true =
        some (.finite (-1), "Input dimensions must be multiples of 8.") ↔
      (¬ (8 : ℤ) ∣ 513 ∨ ¬ (8 : ℤ) ∣ 512)) :=
  ⟨⟨by decide, by decide, by decide, by decide⟩,
   C2_exact_check_below_pow53 513 512 20 true (by decide) (by decide) (by decide) (by decide)⟩

/-- C6 counterexample: at the valid dimensions height = width = 2^540 the
latent pixel count 2^537 * 2^537 = 2^1074 overflows to infinity, and both
attention modes return the same infinite estimate although the latent pixel
count is nonzero: the optimized estimate is not strictly lower. -/
theorem C6_overflow_counterexample :
    (0 : ℤ) < 2 ^ 540 ∧ (8 : ℤ) ∣ 2 ^ 540 ∧
    f_estimate_fp (2 ^ 540) (2 ^ 540) 20 true =
      some (.posInf, "Optimized (Linear Scaling)") ∧
    f_estimate_fp (2 ^ 540) (2 ^ 540) 20 false =
      some (.posInf, "Standard (Quadratic Overhead)") ∧
    (2 : ℚ) ^ 537 * (2 : ℚ) ^ 537 ≠ 0 := by
  have e1 : (py_int ((2 : ℚ) ^ 537) : ℚ) = (2 : ℚ) ^ 537 := by
    rw [show ((2 : ℚ) ^ 537) = (((2 ^ 537 : ℤ)) : ℚ) from by push_cast; norm_num,
      py_int_intCast]
  have hpipe : ∀ o : Bool, f_estimate_fp (2 ^ 540) (2 ^ 540) 20 o =
      some (.posInf,
        if o then "Optimized (Linear Scaling)" else "Standard (Quadratic Overhead)") := by
    intro o
    rw [f_estimate_fp_success (2 ^ 540) (2 ^ 540) 20 o _ _ _ truediv_pow540 truediv_pow540
      e1 e1 (py_float_of_int_small _ (by norm_num))]
    have hN : fp_mul (.finite ((2 : ℚ) ^ 537)) (.finite ((2 : ℚ) ^ 537)) = .posInf := by
      simp only [fp_mul]
      exact fp_round_pow1074
    rw [hN, fp_mul_posInf_left 20000 (by norm_num), fp_mul_posInf_left 4 (by norm_num),
      fp_mul_posInf_left _ (show (0 : ℚ) < (if o then 1 else 5 / 4) from
        by rcases o with _ | _ <;> norm_num),
      fp_mul_posInf_left 2 (by norm_num),
      show fp_add PyFloat.posInf PyFloat.posInf = PyFloat.posInf from rfl,
      show fp_add (PyFloat.finite (((2132400000 + 500000000 + 3072 * 20 : ℤ)) : ℚ))
        PyFloat.posInf = PyFloat.posInf from rfl,
      fp_div_posInf_finite _ (by positivity)]
  exact ⟨by positivity, ⟨2 ^ 537, by ring⟩, hpipe true, hpipe false, by positivity⟩

/-- C10 counterexample: at height = 2^1030, a multiple of 8, the division
height / 8 itself overflows the double range and the program raises
OverflowError instead of returning a computed result. -/
theorem C10_overflow_counterexample :
    (8 : ℤ) ∣ 2 ^ 1030 ∧ f_estimate_fp (2 ^ 1030) 512 20 true = none :=
  ⟨⟨2 ^ 1027, by ring⟩, f_estimate_fp_of_truediv_none _ _ _ _ truediv_pow1030⟩

/-- C10 (amended): within the double-exact range (dimensions below 2^56 in
magnitude, prompt length below 2^1000) the pure estimator enforces no
precondition beyond divisibility by 8: zero and negative dimensions and
out-of-range prompt lengths are all accepted, and both latent divisions
return their exact quotients. -/
theorem C10_no_range_precondition_below_pow56 (h w pl : ℤ) (o : Bool)
    (hh8 : (8 : ℤ) ∣ h) (hw8 : (8 : ℤ) ∣ w)
    (hh : |h| < 2 ^ 56) (hw : |w| < 2 ^ 56) (hpl : |pl| < 2 ^ 1000) :
    f_estimate h w pl o =
      (bytes_to_gb (C_WEIGHTS_BYTES + C_OVERHEAD_BYTES + C_L_FACTOR * (pl : ℚ) +
        ((h : ℚ) / 8 * ((w : ℚ) / 8) * K_ITER_BASE *
            (if o then 1 else K_ATTN_STANDARD_MULTIPLIER) +
          (h : ℚ) / 8 * ((w : ℚ) / 8) * 4 * 2)),
       if o then "Optimized (Linear Scaling)" else "Standard (Quadratic Overhead)") ∧
    py_int_truediv h 8 = some ((h : ℚ) / 8) ∧
    py_int_truediv w 8 = some ((w : ℚ) / 8) :=
  ⟨f_estimate_of_dvd h w pl o hh8 hw8,
   py_int_truediv_eight_dvd h hh8 hh, py_int_truediv_eight_dvd w hw8 hw⟩

/-- Witness for C10 at the out-of-range input height=0, width=-8,
prompt_length=100: the estimator still takes the computed success branch. -/
theorem C10_witness :
    ((8 : ℤ) ∣ 0 ∧ (8 : ℤ) ∣ (-8) ∧ |(0 : ℤ)| < 2 ^ 56 ∧ |(-8 : ℤ)| < 2 ^ 56 ∧
      |(100 : ℤ)| < 2 ^ 1000) ∧
    (f_estimate 0 (-8) 100 false =
      (bytes_to_gb (C_WEIGHTS_BYTES + C_OVERHEAD_BYTES + C_L_FACTOR * ((100 : ℤ) : ℚ) +
        (((0 : ℤ) : ℚ) / 8 * (((-8 : ℤ) : ℚ) / 8) * K_ITER_BASE *
            (if false then 1 else K_ATTN_STANDARD_MULTIPLIER) +
          ((0 : ℤ) : ℚ) / 8 * (((-8 : ℤ) : ℚ) / 8) * 4 * 2)),
       if false then "Optimized (Linear Scaling)" else "Standard (Quadratic Overhead)") ∧
     py_int_truediv 0 8 = some (((0 : ℤ) : ℚ) / 8) ∧
     py_int_truediv (-8) 8 = some (((-8 : ℤ) : ℚ) / 8)) :=
  ⟨⟨⟨0, by decide⟩, ⟨-1, by decide⟩, by decide, by decide,
    lt_of_lt_of_le (by decide : |(100 : ℤ)| < 2 ^ 7)
      (pow_le_pow_right₀ (by decide) (by decide))⟩,
   C10_no_range_precondition_below_pow56 0 (-8) 100 false ⟨0, by decide⟩ ⟨-1, by decide⟩
     (by decide) (by decide)
     (lt_of_lt_of_le (by decide : |(100 : ℤ)| < 2 ^ 7)
       (pow_le_pow_right₀ (by decide) (by decide)))⟩
